import Mathlib

/-!
Verification of the demarcated-block extraction protocol and the call-and-write
orchestration of `codewizard.py`.

The program sends one chat-completion request and recovers two artifacts (code,
documentation) from the response text by scanning it line by line for the four
marker tokens `<code>`, `</code>`, `<doc>`, `</doc>`.  The scanning loop lives in
`CodeAssistant.write_output_files` (src/codewizard.py lines 144-189); the single
network call lives in `CodeAssistant.generate_code_and_doc` (lines 112-142); the
orchestration is `CodeAssistant.run` (lines 191-196).

The extractor is embedded as a fold over the list of lines of the response
(Python iterates over `content.splitlines()`; each element of the list stands
for one line, without its terminator).  The Python `line.strip()` call is embedded as
`strip` below, operating on the character list of the string.
-/

/-- Embedding of the Python `str.strip()` method as used on each line
(src/codewizard.py:154,157,160,163): remove leading and trailing whitespace
characters.  Defined on the character list of the string so that it is
kernel-computable. -/
def strip (s : String) : String :=
  ⟨((s.data.dropWhile Char.isWhitespace).reverse.dropWhile Char.isWhitespace).reverse⟩

/-- The mutable state of the scanning loop in `write_output_files`
(src/codewizard.py:148-151): the two independent mode booleans `in_code_block`
and `in_doc_block` and the two accumulated line buffers `code` and `doc`. -/
structure ExtractState where
  in_code_block : Bool
  in_doc_block : Bool
  code : List String
  doc : List String
deriving DecidableEq

/-- Initial loop state (src/codewizard.py:148-151): both modes off, both
buffers empty. -/
def initState : ExtractState := ⟨false, false, [], []⟩

/-- One iteration of the loop body of `write_output_files`
(src/codewizard.py:153-170), translated branch for branch: a line whose
stripped form equals one of the four marker tokens only toggles the
corresponding mode and is consumed (`continue`); otherwise the line is appended
to `code` when `in_code_block` is set, else to `doc` when `in_doc_block` is set
(the source uses `if ... elif ...`, so the code buffer takes priority), else it
is discarded. -/
def processLine (s : ExtractState) (line : String) : ExtractState :=
  if strip line = "<code>" then { s with in_code_block := true }
  else if strip line = "</code>" then { s with in_code_block := false }
  else if strip line = "<doc>" then { s with in_doc_block := true }
  else if strip line = "</doc>" then { s with in_doc_block := false }
  else if s.in_code_block then { s with code := s.code ++ [line] }
  else if s.in_doc_block then { s with doc := s.doc ++ [line] }
  else s

/-- The whole scanning loop of `write_output_files` (src/codewizard.py:153-170)
run over the lines of the response text. -/
def extractBlocks (lines : List String) : ExtractState :=
  lines.foldl processLine initState

/-- A line is a marker line when its stripped form equals one of the four
literal tokens tested in src/codewizard.py:154-165. -/
def isMarker (l : String) : Bool :=
  (strip l == "<code>") || (strip l == "</code>") || (strip l == "<doc>") || (strip l == "</doc>")

/-- The anomalies recorded by a run of the extraction loop.  The loop in
`write_output_files` (src/codewizard.py:148-173) maintains no anomaly
accumulator of any kind: no branch records an unmatched close, a redundant
open, or an unclosed block.  The list of recorded anomalies is therefore empty
for every input. -/
def recordedAnomalies (_ : List String) : List String := []

/-- `code_content` of src/codewizard.py:172: the code buffer joined with
newlines. -/
def code_text (lines : List String) : String :=
  String.intercalate "\n" (extractBlocks lines).code

/-- `doc_content` of src/codewizard.py:173: the doc buffer joined with
newlines. -/
def doc_text (lines : List String) : String :=
  String.intercalate "\n" (extractBlocks lines).doc

/-- The files written by `write_output_files` (src/codewizard.py:175-186):
always two, at `out_filename + ".py"` and `out_filename + ".md"`, each holding
the joined buffer followed by one extra `"\n"` (lines 178-179 and 184-185).
Modelled as the list of (path, content) pairs in the order written. -/
def write_output_files (out_filename : String) (lines : List String) : List (String × String) :=
  [(out_filename ++ ".py", code_text lines ++ "\n"),
   (out_filename ++ ".md", doc_text lines ++ "\n")]

/-- Failure kinds a chat-completion attempt can raise; the classification comes
from the Completion Client interface of the spec.  The source handler
(src/codewizard.py:133-135) catches every exception alike. -/
inductive FailKind
  | Transport
  | Auth
  | RateLimited
  | ServerError
deriving DecidableEq

/-- Outcome of one `client.chat.complete` call: a response (given by its list
of lines, i.e. `content.splitlines()`) or a typed failure. -/
inductive CompletionResult
  | success (lines : List String)
  | failure (kind : FailKind)
deriving DecidableEq

/-- `generate_code_and_doc` (src/codewizard.py:112-142), modelled against a
stub completion client indexed by attempt number.  The source makes exactly one
`client.chat.complete` call (line 129); any exception is caught and the process
exits fatally via `sys.exit(1)` (lines 133-135).  There is no retry loop.  The
result pairs the outcome with the number of calls made. -/
def generate_code_and_doc (stub : Nat → CompletionResult) :
    Except FailKind (List String) × Nat :=
  match stub 0 with
  | .success ls => (.ok ls, 1)
  | .failure k => (.error k, 1)

/-- `CodeAssistant.run` (src/codewizard.py:191-196): generate, then write the
output files unconditionally.  There is no emptiness check on the extracted
buffers between the two steps.  Returns the written files (or the fatal
failure) together with the number of completion calls made. -/
def run (stub : Nat → CompletionResult) (out_filename : String) :
    Except FailKind (List (String × String)) × Nat :=
  match generate_code_and_doc stub with
  | (.ok ls, n) => (.ok (write_output_files out_filename ls), n)
  | (.error k, n) => (.error k, n)

/-- Input made of consecutive `<code>` ... `</code>` blocks with the given
inner segments, used to state the multi-occurrence extraction property. -/
def codeBlocks : List (List String) → List String
  | [] => []
  | seg :: rest => ["<code>"] ++ seg ++ ["</code>"] ++ codeBlocks rest

/-! ### Helper lemmas about single loop iterations -/

lemma processLine_open_code (s : ExtractState) (l : String) (h : strip l = "<code>") :
    processLine s l = { s with in_code_block := true } := by
  simp [processLine, h]

lemma processLine_close_code (s : ExtractState) (l : String) (h : strip l = "</code>") :
    processLine s l = { s with in_code_block := false } := by
  simp [processLine, h]

lemma processLine_open_doc (s : ExtractState) (l : String) (h : strip l = "<doc>") :
    processLine s l = { s with in_doc_block := true } := by
  simp [processLine, h]

lemma processLine_close_doc (s : ExtractState) (l : String) (h : strip l = "</doc>") :
    processLine s l = { s with in_doc_block := false } := by
  simp [processLine, h]

lemma isMarker_false_iff (l : String) :
    isMarker l = false ↔
      strip l ≠ "<code>" ∧ strip l ≠ "</code>" ∧ strip l ≠ "<doc>" ∧ strip l ≠ "</doc>" := by
  simp [isMarker, and_assoc]

lemma processLine_plain (s : ExtractState) (l : String) (h : isMarker l = false) :
    processLine s l =
      if s.in_code_block then { s with code := s.code ++ [l] }
      else if s.in_doc_block then { s with doc := s.doc ++ [l] }
      else s := by
  obtain ⟨h1, h2, h3, h4⟩ := (isMarker_false_iff l).mp h
  simp [processLine, h1, h2, h3, h4]

/-! ### Helper lemmas about runs of the loop -/

/-- With both modes off, a run of non-marker lines leaves the state unchanged
(every such line is discarded). -/
lemma foldl_skip (p : List String) (s : ExtractState)
    (hc : s.in_code_block = false) (hd : s.in_doc_block = false)
    (h : ∀ l ∈ p, isMarker l = false) :
    p.foldl processLine s = s := by
  induction p with
  | nil => rfl
  | cons a p ih =>
    have ha : processLine s a = s := by
      rw [processLine_plain s a (h a (by simp))]
      simp [hc, hd]
    rw [List.foldl_cons, ha]
    exact ih fun l hl => h l (by simp [hl])

/-- With the code mode on, a run of non-marker lines appends exactly those
lines to the code buffer (whatever the doc mode is, the `elif` gives the code
buffer priority). -/
lemma foldl_code_accum (p : List String) (s : ExtractState)
    (hc : s.in_code_block = true)
    (h : ∀ l ∈ p, isMarker l = false) :
    p.foldl processLine s = { s with code := s.code ++ p } := by
  induction p generalizing s with
  | nil => simp
  | cons a p ih =>
    have ha : processLine s a = { s with code := s.code ++ [a] } := by
      rw [processLine_plain s a (h a (by simp))]
      simp [hc]
    rw [List.foldl_cons, ha]
    rw [ih { s with code := s.code ++ [a] } hc fun l hl => h l (by simp [hl])]
    simp

/-- With only the doc mode on, a run of non-marker lines appends exactly those
lines to the doc buffer. -/
lemma foldl_doc_accum (p : List String) (s : ExtractState)
    (hc : s.in_code_block = false) (hd : s.in_doc_block = true)
    (h : ∀ l ∈ p, isMarker l = false) :
    p.foldl processLine s = { s with doc := s.doc ++ p } := by
  induction p generalizing s with
  | nil => simp
  | cons a p ih =>
    have ha : processLine s a = { s with doc := s.doc ++ [a] } := by
      rw [processLine_plain s a (h a (by simp))]
      simp [hc, hd]
    rw [List.foldl_cons, ha]
    rw [ih { s with doc := s.doc ++ [a] } hc hd fun l hl => h l (by simp [hl])]
    simp

/-- Every line ever placed in either buffer is a non-marker line: marker lines
are consumed by the `continue` branches regardless of the current modes. -/
lemma foldl_no_marker_inv (p : List String) (s : ExtractState)
    (hcode : ∀ l ∈ s.code, isMarker l = false)
    (hdoc : ∀ l ∈ s.doc, isMarker l = false) :
    (∀ l ∈ (p.foldl processLine s).code, isMarker l = false) ∧
      (∀ l ∈ (p.foldl processLine s).doc, isMarker l = false) := by
  induction p generalizing s with
  | nil => exact ⟨hcode, hdoc⟩
  | cons a p ih =>
    rw [List.foldl_cons]
    by_cases h1 : strip a = "<code>"
    · rw [processLine_open_code s a h1]; exact ih _ hcode hdoc
    · by_cases h2 : strip a = "</code>"
      · rw [processLine_close_code s a h2]; exact ih _ hcode hdoc
      · by_cases h3 : strip a = "<doc>"
        · rw [processLine_open_doc s a h3]; exact ih _ hcode hdoc
        · by_cases h4 : strip a = "</doc>"
          · rw [processLine_close_doc s a h4]; exact ih _ hcode hdoc
          · have hm : isMarker a = false := (isMarker_false_iff a).mpr ⟨h1, h2, h3, h4⟩
            rw [processLine_plain s a hm]
            by_cases hcb : s.in_code_block
            · simp only [hcb, if_true]
              refine ih _ ?_ hdoc
              intro l hl
              rcases List.mem_append.mp hl with hl | hl
              · exact hcode l hl
              · rw [List.mem_singleton.mp hl]; exact hm
            · simp only [hcb, if_false]
              by_cases hdb : s.in_doc_block
              · simp only [hdb, if_true]
                refine ih _ hcode ?_
                intro l hl
                rcases List.mem_append.mp hl with hl | hl
                · exact hdoc l hl
                · rw [List.mem_singleton.mp hl]; exact hm
              · simp only [hdb, if_false]
                exact ih _ hcode hdoc

/-- Specialisation: every line in the extracted code or doc buffer of a run is
a non-marker line. -/
lemma extractBlocks_no_marker (lines : List String) :
    (∀ l ∈ (extractBlocks lines).code, isMarker l = false) ∧
      (∀ l ∈ (extractBlocks lines).doc, isMarker l = false) :=
  foldl_no_marker_inv lines initState (by simp [initState]) (by simp [initState])

/-- Chaining principle: a fold over a concatenation is the composition of the
folds over the pieces. -/
lemma foldl_append3 (l1 l2 : List String) (s t u : ExtractState)
    (h1 : l1.foldl processLine s = t) (h2 : l2.foldl processLine t = u) :
    (l1 ++ l2).foldl processLine s = u := by
  rw [List.foldl_append, h1, h2]

lemma foldl_marker_open_code (s : ExtractState) :
    List.foldl processLine s ["<code>"] = { s with in_code_block := true } :=
  processLine_open_code s "<code>" rfl

lemma foldl_marker_close_code (s : ExtractState) :
    List.foldl processLine s ["</code>"] = { s with in_code_block := false } :=
  processLine_close_code s "</code>" rfl

lemma foldl_marker_open_doc (s : ExtractState) :
    List.foldl processLine s ["<doc>"] = { s with in_doc_block := true } :=
  processLine_open_doc s "<doc>" rfl

lemma foldl_marker_close_doc (s : ExtractState) :
    List.foldl processLine s ["</doc>"] = { s with in_doc_block := false } :=
  processLine_close_doc s "</doc>" rfl

/-! ### Lemmas about `String.intercalate` -/

lemma intercalate_go_factor (s : String) :
    ∀ (as : List String) (acc1 acc2 : String),
      String.intercalate.go (acc1 ++ acc2) s as = acc1 ++ String.intercalate.go acc2 s as := by
  intro as
  induction as with
  | nil => intro acc1 acc2; rfl
  | cons x xs ih =>
    intro acc1 acc2
    show String.intercalate.go (acc1 ++ acc2 ++ s ++ x) s xs
        = acc1 ++ String.intercalate.go (acc2 ++ s ++ x) s xs
    rw [String.append_assoc acc1 acc2 s, String.append_assoc acc1 (acc2 ++ s) x]
    exact ih acc1 ((acc2 ++ s) ++ x)

/-- Joining the concatenation of two nonempty line lists splits into the two
joins separated by one separator. -/
lemma intercalate_append (s : String) (x y : String) (xs ys : List String) :
    String.intercalate s ((x :: xs) ++ (y :: ys)) =
      String.intercalate s (x :: xs) ++ s ++ String.intercalate s (y :: ys) := by
  induction xs generalizing x with
  | nil =>
    show String.intercalate.go x s (y :: ys) = x ++ s ++ String.intercalate.go y s ys
    show String.intercalate.go (x ++ s ++ y) s ys = x ++ s ++ String.intercalate.go y s ys
    exact intercalate_go_factor s ys (x ++ s) y
  | cons z zs ih =>
    show String.intercalate.go x s ((z :: zs) ++ (y :: ys))
        = String.intercalate.go x s (z :: zs) ++ s ++ String.intercalate.go y s ys
    show String.intercalate.go (x ++ s ++ z) s (zs ++ (y :: ys))
        = String.intercalate.go (x ++ s ++ z) s zs ++ s ++ String.intercalate.go y s ys
    exact ih (x ++ s ++ z)

/-- Running the loop over a sequence of back-to-back code blocks appends the
concatenation of all inner segments to the code buffer and returns to the
incoming modes. -/
lemma foldl_codeBlocks : ∀ (segs : List (List String)) (s : ExtractState),
    s.in_code_block = false → s.in_doc_block = false →
    (∀ seg ∈ segs, ∀ l ∈ seg, isMarker l = false) →
    (codeBlocks segs).foldl processLine s = { s with code := s.code ++ segs.flatten } := by
  intro segs
  induction segs with
  | nil => intro s _ _ _; simp [codeBlocks]
  | cons seg rest ih =>
    intro s hc hd h
    have hseg : ∀ l ∈ seg, isMarker l = false := h seg (by simp)
    have hrest : ∀ sg ∈ rest, ∀ l ∈ sg, isMarker l = false := fun sg hsg => h sg (by simp [hsg])
    have hchain : (["<code>"] ++ seg ++ ["</code>"] ++ codeBlocks rest).foldl processLine s
        = ⟨false, s.in_doc_block, (s.code ++ seg) ++ rest.flatten, s.doc⟩ :=
      foldl_append3 (["<code>"] ++ seg ++ ["</code>"]) (codeBlocks rest) s
          ⟨false, s.in_doc_block, s.code ++ seg, s.doc⟩ _
        (foldl_append3 (["<code>"] ++ seg) ["</code>"] s
            ⟨true, s.in_doc_block, s.code ++ seg, s.doc⟩ _
          (foldl_append3 ["<code>"] seg s ⟨true, s.in_doc_block, s.code, s.doc⟩ _
            (foldl_marker_open_code s)
            (foldl_code_accum seg ⟨true, s.in_doc_block, s.code, s.doc⟩ rfl hseg))
          (foldl_marker_close_code ⟨true, s.in_doc_block, s.code ++ seg, s.doc⟩))
        (ih ⟨false, s.in_doc_block, s.code ++ seg, s.doc⟩ rfl hd hrest)
    simp only [codeBlocks]
    rw [hchain]
    simp [hc, List.append_assoc]

/-! ### Claim theorems -/

/-- C1: for every input made of exactly one well-formed code pair and one
well-formed doc pair, disjoint and in either order, with every line outside
and inside the pairs a non-marker line, the extractor returns `code_text` and
`doc_text` equal to the newline-join of the verbatim lines strictly between
the respective open and close markers, and records zero anomalies. -/
theorem c1_single_pair_extraction (lines p1 a p2 b p3 : List String)
    (hp1 : ∀ l ∈ p1, isMarker l = false) (ha : ∀ l ∈ a, isMarker l = false)
    (hp2 : ∀ l ∈ p2, isMarker l = false) (hb : ∀ l ∈ b, isMarker l = false)
    (hp3 : ∀ l ∈ p3, isMarker l = false)
    (hshape :
      lines = p1 ++ ["<code>"] ++ a ++ ["</code>"] ++ p2 ++ ["<doc>"] ++ b ++ ["</doc>"] ++ p3 ∨
      lines = p1 ++ ["<doc>"] ++ b ++ ["</doc>"] ++ p2 ++ ["<code>"] ++ a ++ ["</code>"] ++ p3) :
    code_text lines = String.intercalate "\n" a ∧
    doc_text lines = String.intercalate "\n" b ∧
    recordedAnomalies lines = [] := by
  rcases hshape with h | h
  · subst h
    have hE : extractBlocks
        (p1 ++ ["<code>"] ++ a ++ ["</code>"] ++ p2 ++ ["<doc>"] ++ b ++ ["</doc>"] ++ p3)
        = ⟨false, false, a, b⟩ :=
      foldl_append3 _ p3 _ ⟨false, false, a, b⟩ _
        (foldl_append3 _ ["</doc>"] _ ⟨false, true, a, b⟩ _
          (foldl_append3 _ b _ ⟨false, true, a, []⟩ _
            (foldl_append3 _ ["<doc>"] _ ⟨false, false, a, []⟩ _
              (foldl_append3 _ p2 _ ⟨false, false, a, []⟩ _
                (foldl_append3 _ ["</code>"] _ ⟨true, false, a, []⟩ _
                  (foldl_append3 _ a _ ⟨true, false, [], []⟩ _
                    (foldl_append3 p1 ["<code>"] _ initState _
                      (foldl_skip p1 initState rfl rfl hp1)
                      (foldl_marker_open_code initState))
                    (foldl_code_accum a ⟨true, false, [], []⟩ rfl ha))
                  (foldl_marker_close_code ⟨true, false, a, []⟩))
                (foldl_skip p2 ⟨false, false, a, []⟩ rfl rfl hp2))
              (foldl_marker_open_doc ⟨false, false, a, []⟩))
            (foldl_doc_accum b ⟨false, true, a, []⟩ rfl rfl hb))
          (foldl_marker_close_doc ⟨false, true, a, b⟩))
        (foldl_skip p3 ⟨false, false, a, b⟩ rfl rfl hp3)
    refine ⟨?_, ?_, rfl⟩
    · unfold code_text; rw [hE]
    · unfold doc_text; rw [hE]
  · subst h
    have hE : extractBlocks
        (p1 ++ ["<doc>"] ++ b ++ ["</doc>"] ++ p2 ++ ["<code>"] ++ a ++ ["</code>"] ++ p3)
        = ⟨false, false, a, b⟩ :=
      foldl_append3 _ p3 _ ⟨false, false, a, b⟩ _
        (foldl_append3 _ ["</code>"] _ ⟨true, false, a, b⟩ _
          (foldl_append3 _ a _ ⟨true, false, [], b⟩ _
            (foldl_append3 _ ["<code>"] _ ⟨false, false, [], b⟩ _
              (foldl_append3 _ p2 _ ⟨false, false, [], b⟩ _
                (foldl_append3 _ ["</doc>"] _ ⟨false, true, [], b⟩ _
                  (foldl_append3 _ b _ ⟨false, true, [], []⟩ _
                    (foldl_append3 p1 ["<doc>"] _ initState _
                      (foldl_skip p1 initState rfl rfl hp1)
                      (foldl_marker_open_doc initState))
                    (foldl_doc_accum b ⟨false, true, [], []⟩ rfl rfl hb))
                  (foldl_marker_close_doc ⟨false, true, [], b⟩))
                (foldl_skip p2 ⟨false, false, [], b⟩ rfl rfl hp2))
              (foldl_marker_open_code ⟨false, false, [], b⟩))
            (foldl_code_accum a ⟨true, false, [], b⟩ rfl ha))
          (foldl_marker_close_code ⟨true, false, a, b⟩))
        (foldl_skip p3 ⟨false, false, a, b⟩ rfl rfl hp3)
    refine ⟨?_, ?_, rfl⟩
    · unfold code_text; rw [hE]
    · unfold doc_text; rw [hE]

/-- C1 witness: the example scenario of the spec, with the doc pair first. -/
theorem c1_single_pair_extraction_witness :
    code_text ["<doc>", "Summary line.", "</doc>", "<code>", "print(\"hi\")", "</code>"]
      = "print(\"hi\")" ∧
    doc_text ["<doc>", "Summary line.", "</doc>", "<code>", "print(\"hi\")", "</code>"]
      = "Summary line." := by
  have h := c1_single_pair_extraction
    ["<doc>", "Summary line.", "</doc>", "<code>", "print(\"hi\")", "</code>"]
    [] ["print(\"hi\")"] [] ["Summary line."] []
    (by decide) (by decide) (by decide) (by decide) (by decide)
    (Or.inr rfl)
  exact ⟨h.1, h.2.1⟩

/-- C2: for an input holding two disjoint code pairs (and, in the second
conjunct, any number of back-to-back code blocks), the extracted code buffer
is the concatenation of the inner segments in order of appearance, and
`code_text` is their newline-join; for two nonempty segments this is the two
joined segments separated by one newline. -/
theorem c2_disjoint_blocks_joined :
    (∀ p1 a p2 b p3 : List String,
      (∀ l ∈ p1, isMarker l = false) → (∀ l ∈ a, isMarker l = false) →
      (∀ l ∈ p2, isMarker l = false) → (∀ l ∈ b, isMarker l = false) →
      (∀ l ∈ p3, isMarker l = false) →
      (extractBlocks (p1 ++ ["<code>"] ++ a ++ ["</code>"] ++ p2 ++ ["<code>"] ++ b ++ ["</code>"] ++ p3)).code
          = a ++ b ∧
      (a ≠ [] → b ≠ [] →
        code_text (p1 ++ ["<code>"] ++ a ++ ["</code>"] ++ p2 ++ ["<code>"] ++ b ++ ["</code>"] ++ p3)
          = String.intercalate "\n" a ++ "\n" ++ String.intercalate "\n" b)) ∧
    (∀ segs : List (List String),
      (∀ seg ∈ segs, ∀ l ∈ seg, isMarker l = false) →
      code_text (codeBlocks segs) = String.intercalate "\n" segs.flatten) := by
  constructor
  · intro p1 a p2 b p3 hp1 ha hp2 hb hp3
    have hE : extractBlocks
        (p1 ++ ["<code>"] ++ a ++ ["</code>"] ++ p2 ++ ["<code>"] ++ b ++ ["</code>"] ++ p3)
        = ⟨false, false, a ++ b, []⟩ :=
      foldl_append3 _ p3 _ ⟨false, false, a ++ b, []⟩ _
        (foldl_append3 _ ["</code>"] _ ⟨true, false, a ++ b, []⟩ _
          (foldl_append3 _ b _ ⟨true, false, a, []⟩ _
            (foldl_append3 _ ["<code>"] _ ⟨false, false, a, []⟩ _
              (foldl_append3 _ p2 _ ⟨false, false, a, []⟩ _
                (foldl_append3 _ ["</code>"] _ ⟨true, false, a, []⟩ _
                  (foldl_append3 _ a _ ⟨true, false, [], []⟩ _
                    (foldl_append3 p1 ["<code>"] _ initState _
                      (foldl_skip p1 initState rfl rfl hp1)
                      (foldl_marker_open_code initState))
                    (foldl_code_accum a ⟨true, false, [], []⟩ rfl ha))
                  (foldl_marker_close_code ⟨true, false, a, []⟩))
                (foldl_skip p2 ⟨false, false, a, []⟩ rfl rfl hp2))
              (foldl_marker_open_code ⟨false, false, a, []⟩))
            (foldl_code_accum b ⟨true, false, a, []⟩ rfl hb))
          (foldl_marker_close_code ⟨true, false, a ++ b, []⟩))
        (foldl_skip p3 ⟨false, false, a ++ b, []⟩ rfl rfl hp3)
    refine ⟨by rw [hE], ?_⟩
    intro hA hB
    obtain ⟨x, xs, rfl⟩ := List.exists_cons_of_ne_nil hA
    obtain ⟨y, ys, rfl⟩ := List.exists_cons_of_ne_nil hB
    unfold code_text
    rw [hE]
    exact intercalate_append "\n" x y xs ys
  · intro segs hsegs
    unfold code_text
    rw [show extractBlocks (codeBlocks segs)
        = ({ initState with code := initState.code ++ segs.flatten } : ExtractState) from
      foldl_codeBlocks segs initState rfl rfl hsegs]
    rfl

/-- C2 witness: two one-line blocks separated by a discarded filler line. -/
theorem c2_disjoint_blocks_joined_witness :
    (extractBlocks ["<code>", "a1", "</code>", "mid", "<code>", "b1", "</code>"]).code
      = ["a1", "b1"] ∧
    code_text ["<code>", "a1", "</code>", "mid", "<code>", "b1", "</code>"]
      = "a1" ++ "\n" ++ "b1" := by
  have h := c2_disjoint_blocks_joined.1 [] ["a1"] ["mid"] ["b1"] []
    (by decide) (by decide) (by decide) (by decide) (by decide)
  exact ⟨h.1, h.2 (by decide) (by decide)⟩

/-- C3 counterexample to the recorded-anomaly count: on an input whose second
line is an unmatched `</code>`, the loop records zero anomalies, not one
(it has no anomaly accounting at all). -/
theorem c3_unmatched_close_counterexample :
    extractBlocks ["x", "</code>", "y"] = initState ∧
    (recordedAnomalies ["x", "</code>", "y"]).length = 0 := by
  constructor
  · decide
  · rfl

/-- C3 amended: on an input with an unmatched `</code>` (every earlier line a
non-marker line), the extractor records no anomaly, the unmatched close leaves
the state unchanged, and the extracted state equals that of the input after
the unmatched close, so `code_text` excludes everything before that point. -/
theorem c3_unmatched_close (p1 rest : List String) (h : ∀ l ∈ p1, isMarker l = false) :
    extractBlocks (p1 ++ ["</code>"] ++ rest) = extractBlocks rest ∧
    (p1 ++ ["</code>"]).foldl processLine initState = p1.foldl processLine initState ∧
    recordedAnomalies (p1 ++ ["</code>"] ++ rest) = [] := by
  have hskip : p1.foldl processLine initState = initState := foldl_skip p1 initState rfl rfl h
  have hclose : (p1 ++ ["</code>"]).foldl processLine initState = initState :=
    foldl_append3 p1 ["</code>"] initState initState initState hskip
      (foldl_marker_close_code initState)
  refine ⟨?_, hclose.trans hskip.symm, rfl⟩
  exact foldl_append3 (p1 ++ ["</code>"]) rest initState initState (extractBlocks rest)
    hclose rfl

/-- C3 witness: a one-line prelude followed by an unmatched close, then a
well-formed block; extraction equals that of the suffix alone. -/
theorem c3_unmatched_close_witness :
    extractBlocks ["before", "</code>", "<code>", "x", "</code>"]
      = extractBlocks ["<code>", "x", "</code>"] ∧
    recordedAnomalies ["before", "</code>", "<code>", "x", "</code>"] = [] := by
  have h := c3_unmatched_close ["before"] ["<code>", "x", "</code>"] (by decide)
  exact ⟨h.1, h.2.2⟩

/-- C4 counterexample to the recorded-anomaly count: a `<code>` block never
closed before end of input leaves the open mode set and its lines salvaged,
yet the loop records zero anomalies, not one. -/
theorem c4_never_closed_counterexample :
    (extractBlocks ["<code>", "x"]).in_code_block = true ∧
    (extractBlocks ["<code>", "x"]).code = ["x"] ∧
    (recordedAnomalies ["<code>", "x"]).length = 0 := by
  refine ⟨by decide, by decide, rfl⟩

/-- C4 amended: on an input whose `<code>` marker is never closed, the
extractor records no anomaly, and the code buffer still holds all lines from
just after the open marker to the end of the input (best-effort salvage); the
open mode is still set at end of input. -/
theorem c4_never_closed_salvage (p1 tail : List String)
    (h1 : ∀ l ∈ p1, isMarker l = false) (h2 : ∀ l ∈ tail, isMarker l = false) :
    extractBlocks (p1 ++ ["<code>"] ++ tail) = ⟨true, false, tail, []⟩ ∧
    code_text (p1 ++ ["<code>"] ++ tail) = String.intercalate "\n" tail ∧
    recordedAnomalies (p1 ++ ["<code>"] ++ tail) = [] := by
  have hE : extractBlocks (p1 ++ ["<code>"] ++ tail) = ⟨true, false, tail, []⟩ :=
    foldl_append3 _ tail _ ⟨true, false, [], []⟩ _
      (foldl_append3 p1 ["<code>"] _ initState _
        (foldl_skip p1 initState rfl rfl h1)
        (foldl_marker_open_code initState))
      (foldl_code_accum tail ⟨true, false, [], []⟩ rfl h2)
  refine ⟨hE, ?_, rfl⟩
  unfold code_text
  rw [hE]

/-- C4 witness: an unclosed block holding two lines is salvaged whole. -/
theorem c4_never_closed_salvage_witness :
    extractBlocks ["intro", "<code>", "x", "y"] = ⟨true, false, ["x", "y"], []⟩ ∧
    code_text ["intro", "<code>", "x", "y"] = "x" ++ "\n" ++ "y" := by
  have h := c4_never_closed_salvage ["intro"] ["x", "y"] (by decide) (by decide)
  exact ⟨h.1, h.2.1⟩

/-- C5 counterexample: when both blocks are simultaneously open, a plain line
is appended only to the code buffer, not to both — the doc buffer stays
empty. -/
theorem c5_both_open_counterexample :
    (extractBlocks ["<code>", "<doc>"]).in_code_block = true ∧
    (extractBlocks ["<code>", "<doc>"]).in_doc_block = true ∧
    processLine (extractBlocks ["<code>", "<doc>"]) "x" = ⟨true, true, ["x"], []⟩ := by
  refine ⟨by decide, by decide, by decide⟩

/-- C5 amended: a non-marker line is appended to the code buffer whenever the
code block is open (even if the doc block is open as well, the
`elif` of the source gives the code buffer priority), to the doc buffer when only the doc
block is open, and discarded when neither block is open. -/
theorem c5_plain_line_routing (s : ExtractState) (l : String) (h : isMarker l = false) :
    (s.in_code_block = true → processLine s l = { s with code := s.code ++ [l] }) ∧
    (s.in_code_block = false → s.in_doc_block = true →
      processLine s l = { s with doc := s.doc ++ [l] }) ∧
    (s.in_code_block = false → s.in_doc_block = false → processLine s l = s) := by
  refine ⟨?_, ?_, ?_⟩
  · intro hc; rw [processLine_plain s l h]; simp [hc]
  · intro hc hd; rw [processLine_plain s l h]; simp [hc, hd]
  · intro hc hd; rw [processLine_plain s l h]; simp [hc, hd]

/-- C5 witness: with only the doc block open, a plain line goes to the doc
buffer. -/
theorem c5_plain_line_routing_witness :
    isMarker "x" = false ∧
    processLine ⟨false, true, [], []⟩ "x" = ⟨false, true, [], ["x"]⟩ :=
  ⟨by decide, (c5_plain_line_routing ⟨false, true, [], []⟩ "x" (by decide)).2.1 rfl rfl⟩

/-- C6 counterexample: on a marker-free response the orchestrator does not
report any failure — it succeeds and writes the two artifact files (each
holding just a newline). -/
theorem c6_no_markers_counterexample :
    run (fun _ => CompletionResult.success ["hello"]) "out"
      = (Except.ok [("out.py", "\n"), ("out.md", "\n")], 1) := by
  rfl

/-- C6 amended: for a response with no marker lines, both extracted buffers
are empty, and the orchestrator nevertheless writes the two artifact files,
each containing a single newline, and reports success; there is no
empty-content check in `run`. -/
theorem c6_no_markers_still_writes (stub : Nat → CompletionResult) (out : String)
    (ls : List String) (h1 : stub 0 = CompletionResult.success ls)
    (h2 : ∀ l ∈ ls, isMarker l = false) :
    (extractBlocks ls).code = [] ∧ (extractBlocks ls).doc = [] ∧
    run stub out = (Except.ok [(out ++ ".py", "\n"), (out ++ ".md", "\n")], 1) := by
  have hE : extractBlocks ls = initState := foldl_skip ls initState rfl rfl h2
  have hw : write_output_files out ls = [(out ++ ".py", "\n"), (out ++ ".md", "\n")] := by
    unfold write_output_files code_text doc_text
    rw [hE]
    rfl
  refine ⟨by rw [hE]; rfl, by rw [hE]; rfl, ?_⟩
  simp [run, generate_code_and_doc, h1, hw]

/-- C6 witness: a single marker-free response line. -/
theorem c6_no_markers_still_writes_witness :
    ((fun _ => CompletionResult.success ["hello"]) : Nat → CompletionResult) 0
      = CompletionResult.success ["hello"] ∧
    run (fun _ => CompletionResult.success ["hello"]) "out"
      = (Except.ok [("out" ++ ".py", "\n"), ("out" ++ ".md", "\n")], 1) :=
  ⟨rfl, (c6_no_markers_still_writes (fun _ => CompletionResult.success ["hello"]) "out"
    ["hello"] rfl (by decide)).2.2⟩

/-- C7 counterexample: with a stub failing twice with `Transport` and then
succeeding, the program does not retry and succeed after 3 calls — it makes
exactly one call and fails fatally. -/
theorem c7_retry_counterexample :
    run (fun n => if n < 2 then CompletionResult.failure FailKind.Transport
                  else CompletionResult.success ["ok"]) "out"
      = (Except.error FailKind.Transport, 1) := by
  rfl

/-- C7 amended: every run makes exactly one completion call; any failure kind
on that first call — `Transport` and `Auth` alike — is fatal immediately with
no retry; in particular an always-`Auth` stub yields a fatal failure after
exactly one call (the `Auth` half of the original claim). -/
theorem c7_single_call_no_retry (stub : Nat → CompletionResult) (out : String) :
    (run stub out).2 = 1 ∧
    (∀ k, stub 0 = CompletionResult.failure k → run stub out = (Except.error k, 1)) ∧
    run (fun _ => CompletionResult.failure FailKind.Auth) out
      = (Except.error FailKind.Auth, 1) := by
  refine ⟨?_, ?_, rfl⟩
  · rcases h : stub 0 with ls | k <;> simp [run, generate_code_and_doc, h]
  · intro k h
    simp [run, generate_code_and_doc, h]

/-- C7 witness: the always-`Auth` stub fails fatally after exactly one call. -/
theorem c7_single_call_no_retry_witness :
    ((fun _ => CompletionResult.failure FailKind.Auth) : Nat → CompletionResult) 0
      = CompletionResult.failure FailKind.Auth ∧
    run (fun _ => CompletionResult.failure FailKind.Auth) "out"
      = (Except.error FailKind.Auth, 1) :=
  ⟨rfl, (c7_single_call_no_retry (fun _ => CompletionResult.failure FailKind.Auth) "out").2.1
    FailKind.Auth rfl⟩

/-- C8: round-trip stability — wrapping the extracted code buffer again
between a fresh `<code>` line and a fresh `</code>` line and re-running
extraction reproduces the same code buffer and the same `code_text`. -/
theorem c8_roundtrip_stability (lines : List String) :
    (extractBlocks (["<code>"] ++ (extractBlocks lines).code ++ ["</code>"])).code
      = (extractBlocks lines).code ∧
    code_text (["<code>"] ++ (extractBlocks lines).code ++ ["</code>"]) = code_text lines := by
  have hnm : ∀ l ∈ (extractBlocks lines).code, isMarker l = false :=
    (extractBlocks_no_marker lines).1
  have hE : extractBlocks (["<code>"] ++ (extractBlocks lines).code ++ ["</code>"])
      = ⟨false, false, (extractBlocks lines).code, []⟩ :=
    foldl_append3 _ ["</code>"] _ ⟨true, false, (extractBlocks lines).code, []⟩ _
      (foldl_append3 ["<code>"] _ _ ⟨true, false, [], []⟩ _
        (foldl_marker_open_code initState)
        (foldl_code_accum (extractBlocks lines).code ⟨true, false, [], []⟩ rfl hnm))
      (foldl_marker_close_code ⟨true, false, (extractBlocks lines).code, []⟩)
  refine ⟨by rw [hE], ?_⟩
  unfold code_text
  rw [hE]

/-- C9 counterexample: when the extracted code buffer ends in an empty line,
the written code artifact ends in two newlines, not at most one. -/
theorem c9_trailing_newline_counterexample :
    write_output_files "out" ["<code>", "x", "", "</code>"]
      = [("out.py", "x\n\n"), ("out.md", "\n")] ∧
    ("x\n\n" : String) = "x" ++ "\n" ++ "\n" := by
  exact ⟨rfl, rfl⟩

/-- C9 amended: every successful run writes exactly two sibling artifacts at
the stem-derived paths (stem + ".py", stem + ".md"), each holding the
corresponding extracted buffer followed by exactly one appended newline; the
file therefore always ends in a newline, but may end in more than one when
the buffer itself ends in an empty line. -/
theorem c9_two_artifacts (stub : Nat → CompletionResult) (out : String)
    (ls : List String) (h : stub 0 = CompletionResult.success ls) :
    run stub out = (Except.ok (write_output_files out ls), 1) ∧
    (write_output_files out ls).length = 2 ∧
    (write_output_files out ls).map Prod.fst = [out ++ ".py", out ++ ".md"] ∧
    (∀ pc ∈ write_output_files out ls, ∃ t, pc.2 = t ++ "\n") := by
  refine ⟨by simp [run, generate_code_and_doc, h], rfl, rfl, ?_⟩
  intro pc hpc
  simp only [write_output_files, List.mem_cons, List.not_mem_nil, or_false] at hpc
  rcases hpc with h1 | h1
  · exact ⟨code_text ls, by rw [h1]⟩
  · exact ⟨doc_text ls, by rw [h1]⟩

/-- C9 witness: a concrete one-block response produces the two artifacts. -/
theorem c9_two_artifacts_witness :
    ((fun _ => CompletionResult.success ["<code>", "x", "</code>"]) : Nat → CompletionResult) 0
      = CompletionResult.success ["<code>", "x", "</code>"] ∧
    (write_output_files "out" ["<code>", "x", "</code>"]).map Prod.fst
      = ["out" ++ ".py", "out" ++ ".md"] :=
  ⟨rfl, (c9_two_artifacts (fun _ => CompletionResult.success ["<code>", "x", "</code>"])
    "out" ["<code>", "x", "</code>"] rfl).2.2.1⟩

/-- C10: no marker line ever appears in either extracted buffer — every line
whose stripped form equals one of the four marker tokens is consumed by the
loop and excluded from both `code` and `doc`. -/
theorem c10_markers_never_buffered (lines : List String) (l : String)
    (h : l ∈ (extractBlocks lines).code ∨ l ∈ (extractBlocks lines).doc) :
    isMarker l = false := by
  rcases h with h | h
  · exact (extractBlocks_no_marker lines).1 l h
  · exact (extractBlocks_no_marker lines).2 l h

/-- C10 witness: the line between the markers is in the code buffer and is
not a marker line. -/
theorem c10_markers_never_buffered_witness :
    ("x" ∈ (extractBlocks ["<code>", "x", "</code>"]).code ∨
      "x" ∈ (extractBlocks ["<code>", "x", "</code>"]).doc) ∧
    isMarker "x" = false :=
  ⟨Or.inl (by decide),
    c10_markers_never_buffered ["<code>", "x", "</code>"] "x" (Or.inl (by decide))⟩
